import Mathlib

/-!
Shallow embedding of the Rog-Game simulation core (TypeScript) in Lean 4.

Numbers: JavaScript numbers are modelled as rationals; Math.floor, Math.ceil
and Math.round are the corresponding exact operations on rationals.
The unseeded Math.random() stream is modelled as an explicit list of rationals
consumed in call order by the functions that draw from it.
-/

namespace RogGame

/-- JS Math.floor on a rational, returned as a rational. -/
def jsFloor (q : ℚ) : ℚ := (⌊q⌋ : ℤ)

/-- JS Math.ceil on a rational, returned as a rational. -/
def jsCeil (q : ℚ) : ℚ := (⌈q⌉ : ℤ)

/-- JS Math.round: floor of q + 1/2. -/
def jsRound (q : ℚ) : ℚ := (⌊q + 1/2⌋ : ℤ)

/-- Model of the JS idiom parseFloat(x.toFixed(2)): round to two decimals. -/
def toFixed2 (q : ℚ) : ℚ := jsRound (q * 100) / 100

/-- Model of the JS idiom `v || d` on numbers: 0 is falsy and yields the default. -/
def jsOr (v d : ℚ) : ℚ := if v = 0 then d else v

/-- From utils: randomInRange(min, max) = Math.random() * (max - min) + min,
with the Math.random() draw passed in as r. -/
def randomInRange (r lo hi : ℚ) : ℚ := r * (hi - lo) + lo

/-- Plain 2D point or velocity (types.ts Vector2D). -/
structure Vector2D where
  x : ℚ
  y : ℚ
deriving DecidableEq, Repr

/-- Entity extent (types.ts size field). -/
structure Size where
  width : ℚ
  height : ℚ
deriving DecidableEq, Repr

/-- Anything with a position and a size, the shape taken by the geometry helpers. -/
structure Box where
  position : Vector2D
  size : Size
deriving DecidableEq, Repr

-- constants.ts
def WORLD_WIDTH : ℚ := 2400
def WORLD_HEIGHT : ℚ := 1800
def EXPLOSIVE_BARREL_SIZE : ℚ := 30
def BULLET_LIFESPAN : ℚ := 3000
def INVINCIBILITY_DURATION : ℚ := 3000
def DEATH_ANIMATION_DURATION : ℚ := 1500

/-- utils checkCollision: AABB overlap test with strict inequalities. -/
def checkCollision (a b : Box) : Bool :=
  decide (a.position.x < b.position.x + b.size.width) &&
  decide (b.position.x < a.position.x + a.size.width) &&
  decide (a.position.y < b.position.y + b.size.height) &&
  decide (b.position.y < a.position.y + a.size.height)

/-- wrapSystem.ts handleWrapAround: teleport an entity that is fully past one
world edge to the opposite edge, per axis. -/
def handleWrapAround (entity : Box) : Vector2D :=
  let newX :=
    if WORLD_WIDTH < entity.position.x then -entity.size.width
    else if entity.position.x + entity.size.width < 0 then WORLD_WIDTH
    else entity.position.x
  let newY :=
    if WORLD_HEIGHT < entity.position.y then -entity.size.height
    else if entity.position.y + entity.size.height < 0 then WORLD_HEIGHT
    else entity.position.y
  ⟨newX, newY⟩

/-- utils getSlidingMove: move along X, reverting X if the X-moved box overlaps
any obstacle, then move along Y from the (possibly reverted) X, reverting Y on
overlap. The source loops with an early break after the revert; since the revert
restores the pre-move coordinate, this is equivalent to testing the trial box
against every obstacle. -/
def getSlidingMove (entity : Box) (moveVector : Vector2D) (speed : ℚ)
    (obstacles : List Box) : Vector2D :=
  let trialX := entity.position.x + moveVector.x * speed
  let newX :=
    if obstacles.any (fun o => checkCollision ⟨⟨trialX, entity.position.y⟩, entity.size⟩ o)
    then entity.position.x else trialX
  let trialY := entity.position.y + moveVector.y * speed
  let newY :=
    if obstacles.any (fun o => checkCollision ⟨⟨newX, trialY⟩, entity.size⟩ o)
    then entity.position.y else trialY
  ⟨newX, newY⟩

/-- Weapon category tag (types.ts Weapon category). -/
inductive WeaponCategory where
  | pistol
  | smg
  | shotgun
  | rifle
  | launcher
  | special
deriving DecidableEq, Repr

/-- Numeric stats of a weapon (types.ts Weapon). The cosmetic name and color
fields are strings and are not modelled. -/
structure Weapon where
  damage : ℚ
  fireRate : ℚ
  bulletSpeed : ℚ
  bulletCount : ℚ
  piercing : ℚ
  critChance : ℚ
  critDamage : ℚ
  clipSize : ℚ
  ammoInClip : ℚ
  durability : ℚ
  maxDurability : ℚ
  reloadTime : ℚ
  quality : ℚ
  category : WeaponCategory
deriving DecidableEq, Repr

/-- One iteration of the stat-point loop in geminiService.ts
generateUpgradedWeapon. The pair carries the weapon draft and the remaining
Math.random() stream; the roll and, in the branches that draw again, one more
random number are consumed from the front. -/
def statUpgradeStep (wave : ℚ) (st : Weapon × List ℚ) : Weapon × List ℚ :=
  let w := st.1
  let roll := st.2.headD 0
  let rng := st.2.tail
  if roll < 0.25 then
    ({ w with damage := jsRound (w.damage * (1.05 + rng.headD 0 * 0.1) * (1 + wave / 50)) },
      rng.tail)
  else if roll < 0.5 then
    ({ w with fireRate := toFixed2 (w.fireRate * (1.02 + rng.headD 0 * 0.08)) }, rng.tail)
  else if roll < 0.6 then
    ({ w with clipSize := jsOr w.clipSize 10 + jsCeil (randomInRange (rng.headD 0) 1 5) },
      rng.tail)
  else if roll < 0.7 then
    ({ w with reloadTime := max 500 (jsOr w.reloadTime 2000 * (0.95 - rng.headD 0 * 0.05)) },
      rng.tail)
  else if roll < 0.8 then
    ({ w with critChance := min 0.75 (jsOr w.critChance 0.05 + 0.01) }, rng)
  else if roll < 0.9 then
    ({ w with critDamage := jsOr w.critDamage 1.5 + 0.05 }, rng)
  else if roll < 0.95 ∧ 5 < wave then
    ({ w with piercing := jsOr w.piercing 1 + 1 }, rng)
  else if w.category = WeaponCategory.shotgun then
    ({ w with bulletCount := jsOr w.bulletCount 1 + jsFloor (randomInRange (rng.headD 0) 1 2) },
      rng.tail)
  else (w, rng)

/-- The stat-point for loop of generateUpgradedWeapon: n sequential iterations
of statUpgradeStep. -/
def applyStatUpgrades (wave : ℚ) : ℕ → Weapon × List ℚ → Weapon × List ℚ
  | 0, st => st
  | n + 1, st => applyStatUpgrades wave n (statUpgradeStep wave st)

/-- geminiService.ts generateUpgradedWeapon: apply 5 + floor(wave/3) random
stat upgrades, enforce the damage and fireRate failsafes against the baseline,
recompute quality and clamp it above baseline quality + 10, derive durability.
Procedural name and color generation is cosmetic (strings) and not modelled;
the try/catch cannot fail in this numeric model, so the weapon is always
returned. -/
def generateUpgradedWeapon (currentWeapon : Weapon) (wave : ℚ) (rng : List ℚ) : Weapon :=
  let n := (5 + ⌊wave / 3⌋).toNat
  let st := applyStatUpgrades wave n (currentWeapon, rng)
  let w1 := st.1
  let damage2 := max w1.damage (jsRound (currentWeapon.damage * 1.1))
  let fireRate2 := max w1.fireRate (toFixed2 (currentWeapon.fireRate * 1.01))
  let quality0 := jsFloor (damage2 * fireRate2 * jsOr w1.bulletCount 1 *
      (1 + jsOr w1.critChance 0 * jsOr w1.critDamage 0) +
      jsOr w1.piercing 1 * 20 + jsOr w1.bulletSpeed 5 * 5 - jsOr w1.reloadTime 2000 / 100)
  let quality1 := max quality0 (currentWeapon.quality + 10)
  let dur := max 100 (jsFloor (quality1 * 2.5))
  { w1 with
    damage := damage2
    fireRate := fireRate2
    quality := quality1
    ammoInClip := w1.clipSize
    durability := dur
    maxDurability := dur
    category := WeaponCategory.special }

/-- constants.ts INITIAL_WEAPON with its baseline damage replaced by 14; used as
a concrete baseline for the weapon-generation counterexample. -/
def weaponDamage14 : Weapon :=
  { damage := 14
    fireRate := 3
    bulletSpeed := 6
    bulletCount := 1
    piercing := 1
    critChance := 0.05
    critDamage := 1.5
    clipSize := 20
    ammoInClip := 20
    durability := 999999
    maxDurability := 999999
    reloadTime := 2000
    quality := 50
    category := WeaponCategory.special }

/-- A Math.random() stream of five draws of 0.99: every stat roll falls through
every upgrade branch (the weapon is not a shotgun), so no stat is changed by
the loop and only the failsafes apply. -/
def highRngStream : List ℚ := [0.99, 0.99, 0.99, 0.99, 0.99]

/-- The player slice touched by the damage routine and the barrel system:
position, size, health, shield and the invincibility and game-over flags.
The isGameOver flag lives on the surrounding game state in the source and is
carried here because _takeDamage reads and writes it. -/
structure PlayerState where
  position : Vector2D
  size : Size
  health : ℚ
  maxHealth : ℚ
  shield : ℚ
  maxShield : ℚ
  shieldAbsorption : ℚ
  invincibleUntil : ℚ
  isGameOver : Bool
deriving DecidableEq, Repr

/-- useGameLoop.ts _takeDamage: difficulty-scaled, ceil-rounded damage, shield
absorption before health, health clamped at 0, game over when health reaches 0.
A JS-falsy invincibleUntil of 0 never grants invincibility. The damage-number,
screen-shake, leaderboard and monster-intro side effects are display-only and
not modelled. -/
def takeDamage (playerDamageTaken now amount : ℚ) (p : PlayerState) : PlayerState :=
  if p.isGameOver ∨ (p.invincibleUntil ≠ 0 ∧ now < p.invincibleUntil) then p
  else
    let finalAmount := jsCeil (amount * playerDamageTaken)
    if finalAmount ≤ 0 then p
    else
      let p1 := { p with invincibleUntil := now + INVINCIBILITY_DURATION }
      let damageToShield := min p1.shield finalAmount
      let damageAbsorbedByShield := damageToShield * jsOr p1.shieldAbsorption 0.75
      let remainingDamage := finalAmount - damageAbsorbedByShield
      let p2 := { p1 with shield := p1.shield - damageToShield }
      let p3 :=
        if 0 < remainingDamage then { p2 with health := max 0 (p2.health - remainingDamage) }
        else p2
      if p3.health ≤ 0 then { p3 with isGameOver := true } else p3

/-- Monster type tag (types.ts Monster type). -/
inductive MonsterType where
  | normal
  | elite
  | shooter
  | shotgunShooter
  | healer
  | summoner
  | minion
  | boss
  | wisp
  | bloater
  | lichGuard
deriving DecidableEq, Repr

/-- Monster slice used by the bullet, barrel and wave systems. A set diesAt
timestamp is the dying pseudo-state; the cosmetic deathEffect fields are not
modelled. -/
structure Monster where
  position : Vector2D
  size : Size
  health : ℚ
  maxHealth : ℚ
  diesAt : Option ℚ
  type : MonsterType
deriving DecidableEq, Repr

/-- Destructible obstacle (types.ts Obstacle). -/
structure Obstacle where
  position : Vector2D
  size : Size
  health : ℚ
  maxHealth : ℚ
deriving DecidableEq, Repr

/-- Explosive barrel (types.ts ExplosiveBarrel); id models the unique string id
used as the key of the barrelsToExplode map. -/
structure ExplosiveBarrel where
  id : ℕ
  position : Vector2D
  size : Size
  health : ℚ
  maxHealth : ℚ
deriving DecidableEq, Repr

/-- Damage-zone payload carried by a bullet onImpact descriptor. -/
structure ZoneSpec where
  size : Size
  damage : ℚ
  duration : ℚ
deriving DecidableEq, Repr

/-- A damage zone spawned when a bullet with an onImpact descriptor expires. -/
structure DamageZone where
  position : Vector2D
  size : Size
  damage : ℚ
  duration : ℚ
  createdAt : ℚ
deriving DecidableEq, Repr

/-- Player-owned bullet (types.ts Bullet). -/
structure Bullet where
  position : Vector2D
  size : Size
  velocity : Vector2D
  damage : ℚ
  piercingLeft : ℤ
  createdAt : ℚ
  onImpact : Option ZoneSpec
deriving DecidableEq, Repr

/-- Damage the first obstacle in list order whose box the bullet overlaps;
none if the bullet hits no obstacle. Mirrors the for loop with break in the
player-bullet collision block. -/
def damageFirstObstacle (b : Box) (dmg : ℚ) : List Obstacle → Option (List Obstacle)
  | [] => none
  | o :: rest =>
    if checkCollision b ⟨o.position, o.size⟩ then
      some ({ o with health := o.health - dmg } :: rest)
    else (damageFirstObstacle b dmg rest).map (o :: ·)

/-- Damage the first barrel in list order whose box the bullet overlaps. -/
def damageFirstBarrel (b : Box) (dmg : ℚ) : List ExplosiveBarrel →
    Option (List ExplosiveBarrel)
  | [] => none
  | o :: rest =>
    if checkCollision b ⟨o.position, o.size⟩ then
      some ({ o with health := o.health - dmg } :: rest)
    else (damageFirstBarrel b dmg rest).map (o :: ·)

/-- Damage the first non-dying monster the bullet overlaps, applying the crit
roll of the firing weapon; the Math.random() crit draw is consumed from the
stream only when a monster is actually hit, as in the source. -/
def damageFirstMonster (b : Box) (dmg critChance critDamage : ℚ) (rng : List ℚ) :
    List Monster → Option (List Monster) × List ℚ
  | [] => (none, rng)
  | m :: rest =>
    if m.diesAt = none ∧ checkCollision b ⟨m.position, m.size⟩ then
      let isCrit := rng.headD 0 < critChance
      let critMult := if isCrit then critDamage else 1
      (some ({ m with health := m.health - dmg * critMult } :: rest), rng.tail)
    else
      let res := damageFirstMonster b dmg critChance critDamage rng rest
      (res.1.map (m :: ·), res.2)

/-- State threaded through the player-bullet collision phase: the surviving
bullets accumulated so far, the shared entity arrays that bullets mutate, the
spawned damage zones and the remaining Math.random() stream. -/
structure BulletPhaseState where
  bullets : List Bullet
  obstacles : List Obstacle
  barrels : List ExplosiveBarrel
  monsters : List Monster
  damageZones : List DamageZone
  rng : List ℚ
deriving DecidableEq, Repr

/-- useGameLoop.ts player-bullet block, one bullet: move by velocity, wrap,
expire at BULLET_LIFESPAN (spawning the onImpact zone), then test obstacles,
barrels and monsters in order, decrementing piercingLeft per hit and dropping
the bullet mid-pipeline once a hit leaves piercingLeft at or below 0. The final
retention check keeps a bullet only when piercingLeft is positive and the
bullet hit nothing this tick. Display-only damage numbers and the
targetedMonsters and targetedObstacle HUD slots are not modelled. -/
def processOneBullet (critChance critDamage now : ℚ) (st : BulletPhaseState)
    (b0 : Bullet) : BulletPhaseState :=
  let moved : Box :=
    ⟨⟨b0.position.x + b0.velocity.x, b0.position.y + b0.velocity.y⟩, b0.size⟩
  let b := { b0 with position := handleWrapAround moved }
  if BULLET_LIFESPAN < now - b.createdAt then
    match b.onImpact with
    | some z =>
      { st with damageZones :=
          st.damageZones ++ [⟨b.position, z.size, z.damage, z.duration, now⟩] }
    | none => st
  else
    let bbox : Box := ⟨b.position, b.size⟩
    let hitObs := damageFirstObstacle bbox b.damage st.obstacles
    let obstacles1 := hitObs.getD st.obstacles
    let pierce1 : ℤ := if hitObs.isSome then b.piercingLeft - 1 else b.piercingLeft
    if hitObs.isSome ∧ pierce1 ≤ 0 then { st with obstacles := obstacles1 }
    else
      let hitBar := damageFirstBarrel bbox b.damage st.barrels
      let barrels1 := hitBar.getD st.barrels
      let pierce2 : ℤ := if hitBar.isSome then pierce1 - 1 else pierce1
      if (hitObs.isSome ∨ hitBar.isSome) ∧ pierce2 ≤ 0 then
        { st with obstacles := obstacles1, barrels := barrels1 }
      else
        let hitMon := damageFirstMonster bbox b.damage critChance critDamage st.rng st.monsters
        let monsters1 := hitMon.1.getD st.monsters
        let pierce3 : ℤ := if hitMon.1.isSome then pierce2 - 1 else pierce2
        let hitSomething := hitObs.isSome ∨ hitBar.isSome ∨ hitMon.1.isSome
        { st with
          obstacles := obstacles1
          barrels := barrels1
          monsters := monsters1
          rng := hitMon.2
          bullets :=
            if 0 < pierce3 ∧ ¬hitSomething then
              st.bullets ++ [{ b with piercingLeft := pierce3 }]
            else st.bullets }

/-- useGameLoop.ts player-bullet block over the whole bullet array, in order,
with the entity arrays shared across bullets. critChance and critDamage come
from the weapon equipped at fire resolution, with the JS defaults
critChance || 0 and critDamage || 1.5 applied at each hit. -/
def processBullets (critChance critDamage now : ℚ) (bullets : List Bullet)
    (obstacles : List Obstacle) (barrels : List ExplosiveBarrel)
    (monsters : List Monster) (rng : List ℚ) : BulletPhaseState :=
  bullets.foldl (processOneBullet (jsOr critChance 0) (jsOr critDamage 1.5) now)
    ⟨[], obstacles, barrels, monsters, [], rng⟩

/-- useGameLoop.ts post-collision cleanup over monsters: a monster at or below
0 health that is not yet dying gets diesAt set to now; its health is not
restored. The random cosmetic deathEffect choice is not modelled. -/
def markDeadMonsters (now : ℚ) (monsters : List Monster) : List Monster :=
  monsters.map fun m =>
    if m.health ≤ 0 ∧ m.diesAt = none then { m with diesAt := some now } else m

/-- explosiveBarrelAI.ts stage 1 trigger conditions for one barrel: health
depleted, or AABB overlap with the player, or AABB overlap with any non-dying
monster. Detection runs against the state before any explosion resolves. -/
def barrelTriggered (player : PlayerState) (monsters : List Monster)
    (b : ExplosiveBarrel) : Bool :=
  decide (b.health ≤ 0)
  || checkCollision ⟨player.position, player.size⟩ ⟨b.position, b.size⟩
  || monsters.any fun m =>
      decide (m.diesAt = none) && checkCollision ⟨m.position, m.size⟩ ⟨b.position, b.size⟩

/-- State threaded through explosiveBarrelAI.ts processExplosiveBarrels. -/
structure BarrelPhaseState where
  player : PlayerState
  monsters : List Monster
  obstacles : List Obstacle
  barrels : List ExplosiveBarrel
deriving DecidableEq, Repr

/-- explosiveBarrelAI.ts stage 2, one detonation at a barrel position: flat
100 damage with blast diameter 150; the player takes damage through the
takeDamage callback on a circular-radius test from the barrel center, every
non-dying monster in the radius loses 100 health, and every obstacle whose box
meets the blast bounding square loses 200. Other barrels are untouched.
Explosion visuals, damage numbers and the boom popup are not modelled. -/
def applyExplosion (playerDamageTaken now : ℚ) (st : BarrelPhaseState)
    (expPosition : Vector2D) : BarrelPhaseState :=
  let expDamage : ℚ := 100
  let expSize : ℚ := 150
  let expCenter : Vector2D :=
    ⟨expPosition.x + EXPLOSIVE_BARREL_SIZE / 2, expPosition.y + EXPLOSIVE_BARREL_SIZE / 2⟩
  let playerCenter : Vector2D :=
    ⟨st.player.position.x + st.player.size.width / 2,
      st.player.position.y + st.player.size.height / 2⟩
  let distToPlayerSq :=
    (playerCenter.x - expCenter.x) ^ 2 + (playerCenter.y - expCenter.y) ^ 2
  let player1 :=
    if distToPlayerSq < (expSize / 2) ^ 2 then
      takeDamage playerDamageTaken now expDamage st.player
    else st.player
  let monsters1 := st.monsters.map fun m =>
    if m.diesAt = none
        ∧ (m.position.x + m.size.width / 2 - expCenter.x) ^ 2
            + (m.position.y + m.size.height / 2 - expCenter.y) ^ 2 < (expSize / 2) ^ 2 then
      { m with health := m.health - expDamage }
    else m
  let obstacles1 := st.obstacles.map fun o =>
    if checkCollision ⟨o.position, o.size⟩
        ⟨⟨expCenter.x - expSize / 2, expCenter.y - expSize / 2⟩, ⟨expSize, expSize⟩⟩ then
      { o with health := o.health - expDamage * 2 }
    else o
  { st with player := player1, monsters := monsters1, obstacles := obstacles1 }

/-- explosiveBarrelAI.ts processExplosiveBarrels: collect every triggered
barrel against the pre-explosion state, apply each collected explosion in
barrel order, then remove exactly the triggered barrels (keyed by id, as the
barrelsToExplode map is). -/
def processExplosiveBarrels (playerDamageTaken now : ℚ) (st : BarrelPhaseState) :
    BarrelPhaseState :=
  let toExplode := st.barrels.filter (barrelTriggered st.player st.monsters)
  let st1 := toExplode.foldl
    (fun s b => applyExplosion playerDamageTaken now s b.position) st
  { st1 with
    barrels := st.barrels.filter fun b => !(toExplode.map (·.id)).contains b.id }

/-- Wave bookkeeping owned by the wave-progression block of useGameLoop.ts. -/
structure WaveState where
  wave : ℕ
  monstersKilledThisWave : ℕ
  monstersToKillForNextWave : ℚ
  isWaitingForBossClear : Bool
  isBossWave : Bool
deriving DecidableEq, Repr

/-- The value of isBossWave at the moment of the boss-kill check inside the
wave-progression block: the stored flag, or true when the waiting state sees
all non-boss living monsters cleared this tick. -/
def bossWaveAtCheck (s : WaveState) (newlyKilled : List MonsterType)
    (monsters : List Monster) : Bool :=
  let killed1 := s.monstersKilledThisWave
    + (newlyKilled.filter fun t => decide (t ≠ MonsterType.boss)).length
  let waiting1 :=
    if !s.isWaitingForBossClear && !s.isBossWave
        && decide (s.monstersToKillForNextWave ≤ (killed1 : ℚ)) then true
    else s.isWaitingForBossClear
  let cleared := decide ((monsters.filter fun m =>
    decide (m.diesAt = none) && decide (m.type ≠ MonsterType.boss)).length = 0)
  if waiting1 && cleared then true else s.isBossWave

/-- useGameLoop.ts wave-progression block, one tick: count the non-boss kills,
enter the waiting state at the kill threshold, start the boss wave once the
field of non-boss living monsters is clear, and on a boss kill during a boss
wave advance the wave, reset the kill counter and grow the threshold by
floor(x × 1.2 + 5). newlyKilled lists the types of monsters newly killed this
tick. Boss spawning, world regeneration and the wave events act on other state
slices and are not modelled here. -/
def waveStep (s : WaveState) (newlyKilled : List MonsterType)
    (monsters : List Monster) : WaveState :=
  let killed1 := s.monstersKilledThisWave
    + (newlyKilled.filter fun t => decide (t ≠ MonsterType.boss)).length
  let waiting1 :=
    if !s.isWaitingForBossClear && !s.isBossWave
        && decide (s.monstersToKillForNextWave ≤ (killed1 : ℚ)) then true
    else s.isWaitingForBossClear
  let cleared := decide ((monsters.filter fun m =>
    decide (m.diesAt = none) && decide (m.type ≠ MonsterType.boss)).length = 0)
  let waiting2 := if waiting1 && cleared then false else waiting1
  let bossWave1 := if waiting1 && cleared then true else s.isBossWave
  let bossKilled := newlyKilled.contains MonsterType.boss
  if bossWave1 && bossKilled then
    { wave := s.wave + 1
      monstersKilledThisWave := 0
      monstersToKillForNextWave := jsFloor (s.monstersToKillForNextWave * 1.2 + 5)
      isWaitingForBossClear := waiting2
      isBossWave := false }
  else
    { wave := s.wave
      monstersKilledThisWave := killed1
      monstersToKillForNextWave := s.monstersToKillForNextWave
      isWaitingForBossClear := waiting2
      isBossWave := bossWave1 }

/-- Boss state-machine tags (bossAI.ts aiState.type). -/
inductive BossAIStateType where
  | hesitate
  | barrage
  | charging
  | dashing
  | throwing
deriving DecidableEq, Repr

/-- The boss fields written by the phase-transition block of bossAI.ts. -/
structure BossPhaseResult where
  phase : ℕ
  invincibleUntil : ℚ
  aiType : BossAIStateType
  lastActionTime : ℚ
deriving DecidableEq, Repr

/-- The JS read monster.phase || 1: a missing phase (modelled as 0) reads as 1. -/
def effectivePhase (phase : ℕ) : ℕ := if phase = 0 then 1 else phase

/-- bossAI.ts handleBossAI phase-transition block: phase 1 to 2 below 75%
health, 2 to 3 below 40%, and on a transition 2000ms invincibility plus a
forced reset of the ai state to hesitate stamped at now. No other statement of
handleBossAI writes phase or invincibleUntil. -/
def bossPhaseUpdate (health maxHealth : ℚ) (phase : ℕ) (aiType : BossAIStateType)
    (lastActionTime invincibleUntil now : ℚ) : BossPhaseResult :=
  let healthPercent := health / maxHealth
  let currentPhase := effectivePhase phase
  let nextPhase1 := if currentPhase = 1 ∧ healthPercent < 0.75 then 2 else currentPhase
  let nextPhase := if currentPhase = 2 ∧ healthPercent < 0.4 then 3 else nextPhase1
  if currentPhase < nextPhase then
    ⟨nextPhase, now + 2000, BossAIStateType.hesitate, now⟩
  else
    ⟨phase, invincibleUntil, aiType, lastActionTime⟩

/-- Player orbital configuration (types.ts Player orbitals). -/
structure Orbitals where
  count : ℚ
  damage : ℚ
  speed : ℚ
  radius : ℚ
  angle : ℚ
deriving DecidableEq, Repr

/-- Payload of an ORBITAL_SHIELD upgrade effect. -/
structure OrbitalShieldEffect where
  count : ℚ
  damage : ℚ
  speed : ℚ
  radius : ℚ
deriving DecidableEq, Repr

/-- handleLevelUpSelect ORBITAL_SHIELD case: missing orbitals initialize to all
zeroes, then count is incremented by the effect count while damage, speed and
radius take the max of the existing and the new value. -/
def applyOrbitalShield (orbitals : Option Orbitals) (eff : OrbitalShieldEffect) : Orbitals :=
  let p := orbitals.getD ⟨0, 0, 0, 0, 0⟩
  { p with
    count := p.count + eff.count
    damage := max p.damage eff.damage
    speed := max p.speed eff.speed
    radius := max p.radius eff.radius }

end RogGame

namespace RogGame

/-- C8: handleWrapAround sends an entity at x = WORLD_WIDTH + width to
x = -width, and a second application to its own output changes nothing. -/
theorem wrap_exact_edge_and_idempotent (e : Box)
    (hw : 0 < e.size.width) (hh : 0 < e.size.height) :
    (e.position.x = WORLD_WIDTH + e.size.width → (handleWrapAround e).x = -e.size.width)
    ∧ handleWrapAround ⟨handleWrapAround e, e.size⟩ = handleWrapAround e := by
  have hW : (0 : ℚ) < WORLD_WIDTH := by norm_num [WORLD_WIDTH]
  have hH : (0 : ℚ) < WORLD_HEIGHT := by norm_num [WORLD_HEIGHT]
  constructor
  · intro hx
    simp only [handleWrapAround, hx]
    rw [if_pos (by linarith)]
  · simp only [handleWrapAround]
    split_ifs <;>
      simp_all <;> constructor <;> first
        | rfl
        | (split_ifs <;> [skip; skip; rfl] <;> linarith)
        | linarith

/-- C8 witness: concrete entity of size 10 at x = 2410 wraps to x = -10 and
wrapping its output again changes nothing. -/
theorem wrap_exact_edge_and_idempotent_witness :
    (handleWrapAround ⟨⟨2410, 100⟩, ⟨10, 10⟩⟩).x = -10
    ∧ handleWrapAround ⟨handleWrapAround ⟨⟨2410, 100⟩, ⟨10, 10⟩⟩, ⟨10, 10⟩⟩
        = handleWrapAround ⟨⟨2410, 100⟩, ⟨10, 10⟩⟩ := by
  have h := wrap_exact_edge_and_idempotent ⟨⟨2410, 100⟩, ⟨10, 10⟩⟩
    (by norm_num) (by norm_num)
  exact ⟨h.1 (by norm_num [WORLD_WIDTH]), h.2⟩

/-- Helper: a stat roll of at least 0.95 on a non-shotgun weapon falls through
every branch of the stat-upgrade loop body, consuming only the roll. -/
theorem statUpgradeStep_highRoll (wave : ℚ) (w : Weapon) (roll : ℚ) (rest : List ℚ)
    (hcat : w.category ≠ WeaponCategory.shotgun) (hroll : (0.95 : ℚ) ≤ roll) :
    statUpgradeStep wave (w, roll :: rest) = (w, rest) := by
  have h95 : ¬ (roll < 0.95 ∧ 5 < wave) := fun h => absurd h.1 (by linarith)
  simp only [statUpgradeStep, List.headD_cons, List.tail_cons]
  rw [if_neg (by norm_num; linarith), if_neg (by norm_num; linarith),
    if_neg (by norm_num; linarith), if_neg (by norm_num; linarith),
    if_neg (by norm_num; linarith), if_neg (by norm_num; linarith),
    if_neg h95, if_neg hcat]

/-- Helper: projection of the generated weapon damage: the post-loop damage
clamped from below by Math.round(1.1 × baseline). -/
theorem generateUpgradedWeapon_damage (w : Weapon) (wave : ℚ) (rng : List ℚ) :
    (generateUpgradedWeapon w wave rng).damage
      = max (applyStatUpgrades wave ((5 + ⌊wave / 3⌋).toNat) (w, rng)).1.damage
          (jsRound (w.damage * 1.1)) := rfl

/-- C1 counterexample: for the baseline weapon with damage 14 at wave 1 and a
random stream that never rolls a damage upgrade, the generated weapon has
damage 15 < 1.1 × 14 = 15.4, so the claimed conjunction fails. -/
theorem generated_damage_below_ratio_cex :
    ¬ (1.1 * weaponDamage14.damage
          ≤ (generateUpgradedWeapon weaponDamage14 1 highRngStream).damage
        ∧ weaponDamage14.quality
          < (generateUpgradedWeapon weaponDamage14 1 highRngStream).quality) := by
  have hcat : weaponDamage14.category ≠ WeaponCategory.shotgun := by
    simp [weaponDamage14]
  have hstep : ∀ rest, statUpgradeStep 1 (weaponDamage14, (0.99 : ℚ) :: rest)
      = (weaponDamage14, rest) :=
    fun rest => statUpgradeStep_highRoll 1 weaponDamage14 0.99 rest hcat (by norm_num)
  have hn : ((5 + ⌊(1 : ℚ) / 3⌋).toNat) = 5 := by norm_num; rfl
  have hloop : applyStatUpgrades 1 ((5 + ⌊(1 : ℚ) / 3⌋).toNat) (weaponDamage14, highRngStream)
      = (weaponDamage14, []) := by
    rw [hn]
    simp only [highRngStream]
    show applyStatUpgrades 1 (4 + 1) _ = _
    rw [applyStatUpgrades, hstep]
    show applyStatUpgrades 1 (3 + 1) _ = _
    rw [applyStatUpgrades, hstep]
    show applyStatUpgrades 1 (2 + 1) _ = _
    rw [applyStatUpgrades, hstep]
    show applyStatUpgrades 1 (1 + 1) _ = _
    rw [applyStatUpgrades, hstep]
    show applyStatUpgrades 1 (0 + 1) _ = _
    rw [applyStatUpgrades, hstep]
    rfl
  have hdam : (generateUpgradedWeapon weaponDamage14 1 highRngStream).damage = 15 := by
    rw [generateUpgradedWeapon_damage, hloop]
    show max weaponDamage14.damage (jsRound (weaponDamage14.damage * 1.1)) = 15
    have : jsRound (weaponDamage14.damage * 1.1) = 15 := by
      simp only [jsRound, weaponDamage14]
      norm_num
    rw [this]
    simp only [weaponDamage14]
    rw [max_eq_right (by norm_num)]
  intro h
  rw [hdam] at h
  have := h.1
  simp only [weaponDamage14] at this
  norm_num at this

/-- C2: a player with shield 50, shieldAbsorption 0.75 and health 100, not
invincible and with difficulty damage modifier 1, hit for 40: min(50,40) = 40
shield is consumed leaving shield 10, 40 × 0.75 = 30 is absorbed, and the
remaining 10 damage leaves health 90. -/
theorem takeDamage_shield_absorption_scenario :
    (takeDamage 1 1000 40 ⟨⟨0, 0⟩, ⟨20, 20⟩, 100, 100, 50, 50, 0.75, 0, false⟩).shield = 10
    ∧ (takeDamage 1 1000 40 ⟨⟨0, 0⟩, ⟨20, 20⟩, 100, 100, 50, 50, 0.75, 0, false⟩).health
        = 90 := by
  have hfa : jsCeil ((40 : ℚ) * 1) = 40 := by norm_num [jsCeil]
  have hjor : jsOr (0.75 : ℚ) 0.75 = 0.75 := by norm_num [jsOr]
  constructor <;>
  · simp only [takeDamage, hfa, hjor]
    norm_num [min_def, max_def]

/-- Helper: evaluation of the bullet phase on one stationary bullet with
piercingLeft 2 and damage 10 overlapping one non-dying monster of health hp:
the monster loses 10 health and the bullet does not survive. -/
theorem processBullets_hits_single_monster (hp : ℚ) :
    processBullets 0 1.5 0 [⟨⟨40, 40⟩, ⟨8, 8⟩, ⟨0, 0⟩, 10, 2, 0, none⟩] [] []
        [⟨⟨40, 40⟩, ⟨24, 24⟩, hp, hp, none, MonsterType.normal⟩] [1]
      = ⟨[], [], [], [⟨⟨40, 40⟩, ⟨24, 24⟩, hp - 10, hp, none, MonsterType.normal⟩],
          [], []⟩ := by
  have hwrap : handleWrapAround ⟨⟨40, 40⟩, ⟨8, 8⟩⟩ = ⟨40, 40⟩ := by
    norm_num [handleWrapAround, WORLD_WIDTH, WORLD_HEIGHT]
  have hcol : checkCollision ⟨⟨40, 40⟩, ⟨8, 8⟩⟩ ⟨⟨40, 40⟩, ⟨24, 24⟩⟩ = true := by
    norm_num [checkCollision]
  have hmon : damageFirstMonster ⟨⟨40, 40⟩, ⟨8, 8⟩⟩ 10 (jsOr 0 0) (jsOr (3/2) (3/2)) [1]
        [⟨⟨40, 40⟩, ⟨24, 24⟩, hp, hp, none, MonsterType.normal⟩]
      = (some [⟨⟨40, 40⟩, ⟨24, 24⟩, hp - 10, hp, none, MonsterType.normal⟩], []) := by
    norm_num [damageFirstMonster, hcol, jsOr]
  simp only [processBullets, List.foldl_cons, List.foldl_nil]
  norm_num [processOneBullet, hwrap, hmon, BULLET_LIFESPAN,
    damageFirstObstacle, damageFirstBarrel]

/-- C3: a bullet with piercingLeft 2 that hits a single monster is removed from
the bullet list this tick even though its decremented piercingLeft is 1 over 0,
because the retention check requires that the bullet hit nothing; the monster
still takes the 10 damage. This evaluates the code at the failing input of the
piercing claim. -/
theorem piercing_bullet_removed_on_first_hit :
    processBullets 0 1.5 0 [⟨⟨40, 40⟩, ⟨8, 8⟩, ⟨0, 0⟩, 10, 2, 0, none⟩] [] []
        [⟨⟨40, 40⟩, ⟨24, 24⟩, 30, 30, none, MonsterType.normal⟩] [1]
      = ⟨[], [], [], [⟨⟨40, 40⟩, ⟨24, 24⟩, 20, 30, none, MonsterType.normal⟩],
          [], []⟩ := by
  have h := processBullets_hits_single_monster 30
  norm_num at h
  exact h

/-- C4 counterexample: a monster with 5 health hit by a 10-damage bullet ends
the tick at health -5: the post-collision cleanup marks it dying (diesAt set)
but keeps the negative health, and the monster stays in the state through its
death animation, so the all-entities bound 0 ≤ health fails at end of tick. -/
theorem monster_health_negative_after_tick_cex :
    markDeadMonsters 0 (processBullets 0 1.5 0
        [⟨⟨40, 40⟩, ⟨8, 8⟩, ⟨0, 0⟩, 10, 2, 0, none⟩] [] []
        [⟨⟨40, 40⟩, ⟨24, 24⟩, 5, 5, none, MonsterType.normal⟩] [1]).monsters
      = [⟨⟨40, 40⟩, ⟨24, 24⟩, -5, 5, some 0, MonsterType.normal⟩]
    ∧ ¬ (0 : ℚ) ≤ -5 := by
  have h := processBullets_hits_single_monster 5
  rw [h]
  constructor
  · norm_num [markDeadMonsters]
  · norm_num

/-- C4 amended: the damage routine preserves the player bounds 0 ≤ health ≤
maxHealth and 0 ≤ shield ≤ maxShield; the all-entities version of the claim
fails because monsters and barrels can carry negative health. -/
theorem takeDamage_preserves_player_bounds (dmgMod now amount : ℚ) (p : PlayerState)
    (hh0 : 0 ≤ p.health) (hh1 : p.health ≤ p.maxHealth)
    (hs0 : 0 ≤ p.shield) (hs1 : p.shield ≤ p.maxShield) :
    0 ≤ (takeDamage dmgMod now amount p).health
    ∧ (takeDamage dmgMod now amount p).health ≤ (takeDamage dmgMod now amount p).maxHealth
    ∧ 0 ≤ (takeDamage dmgMod now amount p).shield
    ∧ (takeDamage dmgMod now amount p).shield ≤ (takeDamage dmgMod now amount p).maxShield := by
  simp only [takeDamage]
  split_ifs with h1 h2 h3 h4 h5
  · exact ⟨hh0, hh1, hs0, hs1⟩
  · exact ⟨hh0, hh1, hs0, hs1⟩
  all_goals
    (have hfa : 0 < jsCeil (amount * dmgMod) := not_le.mp h2
     have hminle : p.shield ⊓ jsCeil (amount * dmgMod) ≤ p.shield := min_le_left _ _
     have hmin0 : 0 ≤ p.shield ⊓ jsCeil (amount * dmgMod) := le_min hs0 (le_of_lt hfa)
     have hmax0 : 0 ≤ p.maxHealth := hh0.trans hh1
     dsimp only
     refine ⟨?_, ?_, ?_, ?_⟩ <;>
       first
         | exact le_max_left _ _
         | exact max_le hmax0 (by linarith)
         | linarith)

/-- C4 amended witness: the bounds theorem applied to the concrete shield
scenario player hit for 40 damage at modifier 1. -/
theorem takeDamage_preserves_player_bounds_witness :
    0 ≤ (takeDamage 1 1000 40 ⟨⟨0, 0⟩, ⟨20, 20⟩, 100, 100, 50, 50, 0.75, 0, false⟩).health
    ∧ (takeDamage 1 1000 40 ⟨⟨0, 0⟩, ⟨20, 20⟩, 100, 100, 50, 50, 0.75, 0, false⟩).health
        ≤ (takeDamage 1 1000 40 ⟨⟨0, 0⟩, ⟨20, 20⟩, 100, 100, 50, 50, 0.75, 0, false⟩).maxHealth
    ∧ 0 ≤ (takeDamage 1 1000 40 ⟨⟨0, 0⟩, ⟨20, 20⟩, 100, 100, 50, 50, 0.75, 0, false⟩).shield
    ∧ (takeDamage 1 1000 40 ⟨⟨0, 0⟩, ⟨20, 20⟩, 100, 100, 50, 50, 0.75, 0, false⟩).shield
        ≤ (takeDamage 1 1000 40 ⟨⟨0, 0⟩, ⟨20, 20⟩, 100, 100, 50, 50, 0.75, 0, false⟩).maxShield :=
  takeDamage_preserves_player_bounds 1 1000 40
    ⟨⟨0, 0⟩, ⟨20, 20⟩, 100, 100, 50, 50, 0.75, 0, false⟩
    (by norm_num) (by norm_num) (by norm_num) (by norm_num)

/-- C1 amended: for every baseline weapon, wave and random stream, the generated
weapon has damage at least Math.round(1.1 × baseline damage) and quality
strictly greater than the baseline quality. -/
theorem generated_weapon_progression (w : Weapon) (wave : ℚ) (rng : List ℚ) :
    jsRound (w.damage * 1.1) ≤ (generateUpgradedWeapon w wave rng).damage
    ∧ w.quality < (generateUpgradedWeapon w wave rng).quality := by
  unfold generateUpgradedWeapon
  refine ⟨le_max_right _ _, lt_of_lt_of_le (by linarith) (le_max_right _ _)⟩

/-- Helper: applying explosions never touches the barrel list. -/
theorem applyExplosion_foldl_barrels (dmgMod now : ℚ) :
    ∀ (l : List ExplosiveBarrel) (s : BarrelPhaseState),
      (l.foldl (fun s b => applyExplosion dmgMod now s b.position) s).barrels
        = s.barrels := by
  intro l
  induction l with
  | nil => intro s; rfl
  | cons b tl ih => intro s; rw [List.foldl_cons, ih]; rfl

/-- C5 counterexample: barrel A (id 0) has health 0 and detonates; barrel B
(id 1) sits 50px away, so the center of B lies inside the 75px blast radius of
A, yet B survives the tick with its health 10 untouched, because explosions
damage only the player, monsters and obstacles, never other barrels. -/
theorem barrel_chain_undamaged_cex :
    ((65 : ℚ) - 15) ^ 2 + ((15 : ℚ) - 15) ^ 2 < (150 / 2) ^ 2
    ∧ (processExplosiveBarrels 1 0
        ⟨⟨⟨1000, 1000⟩, ⟨20, 20⟩, 100, 100, 50, 50, 0.75, 0, false⟩, [], [],
          [⟨0, ⟨0, 0⟩, ⟨30, 30⟩, 0, 10⟩, ⟨1, ⟨50, 0⟩, ⟨30, 30⟩, 10, 10⟩]⟩).barrels
      = [⟨1, ⟨50, 0⟩, ⟨30, 30⟩, 10, 10⟩]
    ∧ (processExplosiveBarrels 1 16
        ⟨⟨⟨1000, 1000⟩, ⟨20, 20⟩, 100, 100, 50, 50, 0.75, 0, false⟩, [], [],
          [⟨1, ⟨50, 0⟩, ⟨30, 30⟩, 10, 10⟩]⟩).barrels
      = [⟨1, ⟨50, 0⟩, ⟨30, 30⟩, 10, 10⟩] := by
  have htB : barrelTriggered ⟨⟨1000, 1000⟩, ⟨20, 20⟩, 100, 100, 50, 50, 0.75, 0, false⟩ []
      ⟨1, ⟨50, 0⟩, ⟨30, 30⟩, 10, 10⟩ = false := by
    norm_num [barrelTriggered, checkCollision]
  refine ⟨by norm_num, ?_, ?_⟩
  · have htA : barrelTriggered ⟨⟨1000, 1000⟩, ⟨20, 20⟩, 100, 100, 50, 50, 0.75, 0, false⟩ []
        ⟨0, ⟨0, 0⟩, ⟨30, 30⟩, 0, 10⟩ = true := by
      norm_num [barrelTriggered]
    simp only [processExplosiveBarrels, List.filter_cons, List.filter_nil, htA, htB]
    norm_num [List.contains]
  · simp only [processExplosiveBarrels, List.filter_cons, List.filter_nil, htB]
    norm_num [List.contains]

/-- C5 amended: every barrel whose trigger condition holds this tick detonates
in the same batch and is removed, while every other barrel is kept completely
unchanged: barrel explosions damage the player, monsters and obstacles but
never another barrel, so a barrel in the blast radius takes no damage and does
not chain-detonate next tick. -/
theorem barrels_batch_detonate_never_chain (dmgMod now : ℚ) (st : BarrelPhaseState)
    (hids : (st.barrels.map (·.id)).Nodup) :
    (processExplosiveBarrels dmgMod now st).barrels
      = st.barrels.filter fun b => !barrelTriggered st.player st.monsters b := by
  simp only [processExplosiveBarrels, applyExplosion_foldl_barrels]
  apply List.filter_congr
  intro b hb
  congr 1
  cases htrig : barrelTriggered st.player st.monsters b with
  | true =>
    have hmem : b.id ∈ (st.barrels.filter (barrelTriggered st.player st.monsters)).map (·.id) :=
      List.mem_map.mpr ⟨b, List.mem_filter.mpr ⟨hb, htrig⟩, rfl⟩
    simp [List.contains, List.elem_eq_mem, hmem]
  | false =>
    have hnmem : b.id ∉ (st.barrels.filter (barrelTriggered st.player st.monsters)).map (·.id) := by
      intro hmem
      obtain ⟨c, hc, hcid⟩ := List.mem_map.mp hmem
      obtain ⟨hcmem, hctrig⟩ := List.mem_filter.mp hc
      have hbc : c = b := List.inj_on_of_nodup_map hids hcmem hb hcid
      rw [hbc] at hctrig
      rw [htrig] at hctrig
      exact Bool.false_ne_true hctrig
    simp [List.contains, List.elem_eq_mem, hnmem]

/-- C5 amended witness: the batching equality at the two-barrel state of the
counterexample, whose barrel ids 0 and 1 are distinct. -/
theorem barrels_batch_detonate_never_chain_witness :
    (processExplosiveBarrels 1 0
        ⟨⟨⟨1000, 1000⟩, ⟨20, 20⟩, 100, 100, 50, 50, 0.75, 0, false⟩, [], [],
          [⟨0, ⟨0, 0⟩, ⟨30, 30⟩, 0, 10⟩, ⟨1, ⟨50, 0⟩, ⟨30, 30⟩, 10, 10⟩]⟩).barrels
      = [⟨0, ⟨0, 0⟩, ⟨30, 30⟩, 0, 10⟩, ⟨1, ⟨50, 0⟩, ⟨30, 30⟩, 10, 10⟩].filter
          (fun b => !barrelTriggered
            ⟨⟨1000, 1000⟩, ⟨20, 20⟩, 100, 100, 50, 50, 0.75, 0, false⟩ [] b) :=
  barrels_batch_detonate_never_chain 1 0
    ⟨⟨⟨1000, 1000⟩, ⟨20, 20⟩, 100, 100, 50, 50, 0.75, 0, false⟩, [], [],
      [⟨0, ⟨0, 0⟩, ⟨30, 30⟩, 0, 10⟩, ⟨1, ⟨50, 0⟩, ⟨30, 30⟩, 10, 10⟩]⟩
    (by simp)

/-- Helper: one wave step never decreases the wave counter. -/
theorem waveStep_wave_le (s : WaveState) (nk : List MonsterType) (ms : List Monster) :
    s.wave ≤ (waveStep s nk ms).wave := by
  simp only [waveStep]
  split_ifs <;> simp

/-- C6: over one tick the wave counter stays or increments by exactly 1, it
increments exactly when a boss was killed this tick while the boss-wave flag
(as read at the check, the stored flag or the one set when the field cleared
this tick) holds, and over any sequence of ticks the counter is
non-decreasing. -/
theorem wave_monotone_and_boss_gated (s : WaveState) (nk : List MonsterType)
    (ms : List Monster) (ticks : List (List MonsterType × List Monster)) :
    s.wave ≤ (waveStep s nk ms).wave
    ∧ ((waveStep s nk ms).wave = s.wave ∨ (waveStep s nk ms).wave = s.wave + 1)
    ∧ ((waveStep s nk ms).wave = s.wave + 1
        ↔ (bossWaveAtCheck s nk ms && nk.contains MonsterType.boss) = true)
    ∧ s.wave ≤ (ticks.foldl (fun st p => waveStep st p.1 p.2) s).wave := by
  have hfold : ∀ (ts : List (List MonsterType × List Monster)) (st : WaveState),
      st.wave ≤ (ts.foldl (fun st p => waveStep st p.1 p.2) st).wave := by
    intro ts
    induction ts with
    | nil => intro st; exact le_refl _
    | cons t tl ih =>
      intro st
      exact le_trans (waveStep_wave_le st t.1 t.2) (ih (waveStep st t.1 t.2))
  refine ⟨waveStep_wave_le s nk ms, ?_, ?_, hfold ticks s⟩ <;>
  · simp only [waveStep, bossWaveAtCheck]
    split_ifs with h <;> simp_all

/-- C7: the boss phase transition never lowers the effective phase; any change
sets 2000ms invincibility from now and resets the ai state to hesitate stamped
at now; from phase 1 the result is phase 2 exactly when health is below 75% of
maxHealth, and from phase 2 it is phase 3 exactly when health is below 40%. -/
theorem boss_phase_monotone_thresholds (health maxHealth : ℚ) (phase : ℕ)
    (aiType : BossAIStateType) (lat inv now : ℚ) (hm : 0 < maxHealth) :
    effectivePhase phase
        ≤ effectivePhase (bossPhaseUpdate health maxHealth phase aiType lat inv now).phase
    ∧ (effectivePhase (bossPhaseUpdate health maxHealth phase aiType lat inv now).phase
          ≠ effectivePhase phase →
        (bossPhaseUpdate health maxHealth phase aiType lat inv now).invincibleUntil
            = now + 2000
        ∧ (bossPhaseUpdate health maxHealth phase aiType lat inv now).aiType
            = BossAIStateType.hesitate
        ∧ (bossPhaseUpdate health maxHealth phase aiType lat inv now).lastActionTime = now)
    ∧ (effectivePhase phase = 1 →
        ((bossPhaseUpdate health maxHealth phase aiType lat inv now).phase = 2
          ↔ health < 0.75 * maxHealth))
    ∧ (effectivePhase phase = 2 →
        ((bossPhaseUpdate health maxHealth phase aiType lat inv now).phase = 3
          ↔ health < 0.4 * maxHealth)) := by
  have hdiv75 : health / maxHealth < 0.75 ↔ health < 0.75 * maxHealth := div_lt_iff hm
  have hdiv40 : health / maxHealth < 0.4 ↔ health < 0.4 * maxHealth := div_lt_iff hm
  simp only [bossPhaseUpdate, effectivePhase]
  split_ifs <;> simp_all <;> omega

/-- C7 witness: a boss at 50 of 100 health in phase 1 transitions to phase 2,
becomes invincible until now + 2000 and resets to hesitate at now = 7. -/
theorem boss_phase_monotone_thresholds_witness :
    (bossPhaseUpdate 50 100 1 BossAIStateType.barrage 3 0 7).phase = 2
    ∧ (bossPhaseUpdate 50 100 1 BossAIStateType.barrage 3 0 7).invincibleUntil = 7 + 2000
    ∧ (bossPhaseUpdate 50 100 1 BossAIStateType.barrage 3 0 7).aiType
        = BossAIStateType.hesitate
    ∧ (bossPhaseUpdate 50 100 1 BossAIStateType.barrage 3 0 7).lastActionTime = 7 := by
  have h := boss_phase_monotone_thresholds 50 100 1 BossAIStateType.barrage 3 0 7
    (by norm_num)
  have hphase : (bossPhaseUpdate 50 100 1 BossAIStateType.barrage 3 0 7).phase = 2 :=
    (h.2.2.1 (by norm_num [effectivePhase])).mpr (by norm_num)
  have hchanged : effectivePhase (bossPhaseUpdate 50 100 1 BossAIStateType.barrage 3 0 7).phase
      ≠ effectivePhase 1 := by
    rw [hphase]
    norm_num [effectivePhase]
  exact ⟨hphase, h.2.1 hchanged⟩

/-- C9 counterexample: applying an ORBITAL_SHIELD effect with count 3 to a
player who already has 2 orbitals yields count 5, the sum, not max(2,3) = 3. -/
theorem orbital_count_additive_cex :
    (applyOrbitalShield (some ⟨2, 15, 2, 70, 0⟩) ⟨3, 10, 1, 50⟩).count = 5
    ∧ ¬ (applyOrbitalShield (some ⟨2, 15, 2, 70, 0⟩) ⟨3, 10, 1, 50⟩).count
        = max (2 : ℚ) 3 := by
  constructor
  · norm_num [applyOrbitalShield]
  · norm_num [applyOrbitalShield, max_def]

/-- C9 amended: applying an ORBITAL_SHIELD effect to existing orbitals adds the
effect count to the existing count and takes the max of existing and new for
damage, speed and radius, leaving the angle unchanged. -/
theorem orbital_shield_stacking (o : Orbitals) (eff : OrbitalShieldEffect) :
    applyOrbitalShield (some o) eff
      = ⟨o.count + eff.count, max o.damage eff.damage, max o.speed eff.speed,
          max o.radius eff.radius, o.angle⟩ := rfl

/-- C10: an entity whose box overlaps no obstacle cannot be pushed into one by
getSlidingMove: for any direction and speed the returned position still
overlaps no obstacle in the list. -/
theorem getSlidingMove_stays_collision_free (entity : Box) (v : Vector2D) (speed : ℚ)
    (obstacles : List Box)
    (h : ∀ o ∈ obstacles, checkCollision entity o = false) :
    ∀ o ∈ obstacles,
      checkCollision ⟨getSlidingMove entity v speed obstacles, entity.size⟩ o = false := by
  intro o ho
  simp only [getSlidingMove]
  by_cases hx : (obstacles.any fun ob =>
      checkCollision ⟨⟨entity.position.x + v.x * speed, entity.position.y⟩, entity.size⟩ ob)
      = true
  · simp only [if_pos hx]
    by_cases hy : (obstacles.any fun ob =>
        checkCollision ⟨⟨entity.position.x, entity.position.y + v.y * speed⟩, entity.size⟩ ob)
        = true
    · simp only [if_pos hy]
      exact h o ho
    · simp only [if_neg hy]
      rw [Bool.not_eq_true, List.any_eq_false] at hy
      exact Bool.eq_false_iff.mpr (hy o ho)
  · simp only [if_neg hx]
    by_cases hy : (obstacles.any fun ob =>
        checkCollision ⟨⟨entity.position.x + v.x * speed,
          entity.position.y + v.y * speed⟩, entity.size⟩ ob) = true
    · simp only [if_pos hy]
      rw [Bool.not_eq_true, List.any_eq_false] at hx
      exact Bool.eq_false_iff.mpr (hx o ho)
    · simp only [if_neg hy]
      rw [Bool.not_eq_true, List.any_eq_false] at hy
      exact Bool.eq_false_iff.mpr (hy o ho)

/-- C10 witness: an entity at the origin sliding right at speed 110 into a wall
at x = 100 is reverted on X and ends collision-free. -/
theorem getSlidingMove_stays_collision_free_witness :
    checkCollision
      ⟨getSlidingMove ⟨⟨0, 0⟩, ⟨10, 10⟩⟩ ⟨1, 0⟩ 110 [⟨⟨100, 0⟩, ⟨50, 50⟩⟩],
        (⟨10, 10⟩ : Size)⟩ ⟨⟨100, 0⟩, ⟨50, 50⟩⟩ = false :=
  getSlidingMove_stays_collision_free ⟨⟨0, 0⟩, ⟨10, 10⟩⟩ ⟨1, 0⟩ 110 [⟨⟨100, 0⟩, ⟨50, 50⟩⟩]
    (by
      intro o ho
      rw [List.mem_singleton] at ho
      subst ho
      norm_num [checkCollision])
    ⟨⟨100, 0⟩, ⟨50, 50⟩⟩ (List.mem_singleton.mpr rfl)

end RogGame
